import Mathlib

/-!
Verification of the Case Tracker reminder-escalation and completion-tracking
logic (ContactReminders.js, SummaryReminders.js, Emails.js and the contact
sheet helpers).

Shallow embedding conventions:
* A JavaScript `Date` is its timestamp: milliseconds since the Unix epoch,
  as an `Int`.  The timezone offset is taken as zero throughout (the script
  uses one fixed timezone for `new Date()`, the sheet cells and
  `Utilities.formatDate`, so a fixed nonzero offset would shift every
  timestamp uniformly and change nothing below).
* `Math.floor(x / d)` on integer `x` and positive integer `d` is `Int.fdiv`;
  `Math.ceil` is `-((-x).fdiv d)`.
* Calendar conversions (`getMonth`, `getFullYear`, `getDate`, `getDay`,
  `new Date(y, m, d)`) use the standard proleptic-Gregorian civil-from-days /
  days-from-civil algorithms.
* Email transmission is external I/O; a run is parameterised by a send
  oracle (`Bool` per row) telling whether `GmailApp.sendEmail` succeeds
  or throws for that row.
* HTML template literals are embedded as their list of interpolation
  segments, in source order (literal chunk, interpolated value, ...).
-/

namespace CaseTracker

/-- Milliseconds per day: `1000 * 60 * 60 * 24`. -/
def msPerDay : Int := 86400000

/-- `Math.floor` of an integer quotient (JS division of timestamps). -/
def jsFloorDiv (a b : Int) : Int := Int.fdiv a b

/-- `Math.ceil` of an integer quotient. -/
def jsCeilDiv (a b : Int) : Int := -(Int.fdiv (-a) b)

/-- Civil day number of a timestamp (days since 1970-01-01, floored). -/
def epochDay (t : Int) : Int := Int.fdiv t msPerDay

/-- Days-from-civil (proleptic Gregorian; `m` is 1-based).  Day 0 is
1970-01-01. -/
def daysFromCivil (y m d : Int) : Int :=
  let y' := y - (if m ≤ 2 then 1 else 0)
  let era := Int.fdiv y' 400
  let yoe := y' - era * 400
  let mp := m + (if 2 < m then -3 else 9)
  let doy := Int.fdiv (153 * mp + 2) 5 + d - 1
  let doe := yoe * 365 + Int.fdiv yoe 4 - Int.fdiv yoe 100 + doy
  era * 146097 + doe - 719468

/-- Civil-from-days: `(year, month 1..12, day 1..31)` of a day number. -/
def civilFromDays (z : Int) : Int × Int × Int :=
  let z' := z + 719468
  let era := Int.fdiv z' 146097
  let doe := z' - era * 146097
  let yoe := Int.fdiv (doe - Int.fdiv doe 1460 + Int.fdiv doe 36524 - Int.fdiv doe 146096) 365
  let y := yoe + era * 400
  let doy := doe - (365 * yoe + Int.fdiv yoe 4 - Int.fdiv yoe 100)
  let mp := Int.fdiv (5 * doy + 2) 153
  let d := doy - Int.fdiv (153 * mp + 2) 5 + 1
  let m := mp + (if mp < 10 then 3 else -9)
  (y + (if m ≤ 2 then 1 else 0), m, d)

/-- Civil triple of a timestamp. -/
def civilOf (t : Int) : Int × Int × Int := civilFromDays (epochDay t)

/-- JS `date.getFullYear()`. -/
def jsGetFullYear (t : Int) : Int := (civilOf t).1

/-- JS `date.getMonth()` (0-based month index). -/
def jsGetMonth (t : Int) : Int := (civilOf t).2.1 - 1

/-- JS `date.getDate()` (day of month, 1-based). -/
def jsGetDate (t : Int) : Int := (civilOf t).2.2

/-- JS `date.getDay()` (0 = Sunday .. 6 = Saturday); 1970-01-01 was a
Thursday (4). -/
def jsGetDay (t : Int) : Int := (epochDay t + 4) % 7

/-- JS `new Date(y, m, d)` (0-based month `m`, both `m` and `d` may
over/underflow and are normalised), at local midnight. -/
def jsDateYMD (y m d : Int) : Int :=
  let y' := y + Int.fdiv m 12
  let m' := m % 12
  (daysFromCivil y' (m' + 1) 1 + (d - 1)) * msPerDay

/-- Midnight timestamp of a civil date (1-based month), used for concrete
inputs. -/
def msOfDay (y m d : Int) : Int := daysFromCivil y m d * msPerDay

/-- JS `date.setDate(k)`: keep year/month/time-of-day, set the day-of-month
offset (`k` may over/underflow into adjacent months). -/
def jsSetDate (t k : Int) : Int := t - (jsGetDate t - k) * msPerDay

/-- JS `a.toDateString() === b.toDateString()`: same civil day. -/
def jsSameDay (a b : Int) : Prop := epochDay a = epochDay b

instance (a b : Int) : Decidable (jsSameDay a b) := by
  unfold jsSameDay; infer_instance

/-- `daysRemainingInMonth(date)` from ContactReminders.js:
`lastDay = new Date(y, m + 1, 0)`, then `Math.ceil((lastDay - date) / day)`. -/
def daysRemainingInMonth (t : Int) : Int :=
  let lastDay := jsDateYMD (jsGetFullYear t) (jsGetMonth t + 1) 0
  jsCeilDiv (lastDay - t) msPerDay

/-- Two-digit zero padding for `MM`/`dd` date fields. -/
def pad2 (n : Int) : String := if n < 10 then "0" ++ toString n else toString n

/-- `Utilities.formatDate(date, tz, "MM/dd/yyyy")`. -/
def formatDateMMDDYYYY (t : Int) : String :=
  pad2 (jsGetMonth t + 1) ++ "/" ++ pad2 (jsGetDate t) ++ "/" ++ toString (jsGetFullYear t)

/-- JS `||` fallback on strings (empty string is falsy). -/
def jsOr (a b : String) : String := if a = "" then b else a

/-- ASCII whitespace (the whitespace occurring in spreadsheet cells). -/
def wsChar (c : Char) : Bool :=
  c == ' ' || c == '\t' || c == '\n' || c == '\r'

/-- JS `String.prototype.trim`: strip whitespace from both ends. -/
def jsTrim (s : String) : String :=
  ⟨(((s.data.dropWhile wsChar).reverse.dropWhile wsChar)).reverse⟩

/-- Split a character list at a separator character (JS
`String.prototype.split` with a one-character separator: the result is
never empty and keeps empty fields). -/
def splitOnChar (sep : Char) : List Char → List (List Char)
  | [] => [[]]
  | c :: cs =>
    if c == sep then [] :: splitOnChar sep cs
    else
      match splitOnChar sep cs with
      | [] => [[c]]
      | x :: xs => (c :: x) :: xs

/-- JS `s.split(sep)` for a one-character separator. -/
def jsSplit (s : String) (sep : Char) : List String :=
  (splitOnChar sep s.data).map (fun l => ⟨l⟩)

/-- JS `s.includes(c)` for a one-character needle. -/
def containsChar (s : String) (c : Char) : Bool := s.data.contains c

/-- JS `s.toLowerCase()` (ASCII). -/
def lowerStr (s : String) : String := ⟨s.data.map Char.toLower⟩

/-- Concatenation of template segments (the string value of a template
literal). -/
def joinSegs (l : List String) : String := String.join l

/-! ## Configuration and directory lookup

The globals `MAIN_WORKER_NAME`, ..., `SSM_EMAIL` are loaded from the
Variables sheet before each run; `getWorkerInfoByName` scans the
CPSEmployeeInfo / Additional Workers Info roster tabs (external tabular
I/O).  A run is parameterised by their resolved values. -/

/-- Result record of `getWorkerInfoByName` (part_000): the fields of a
matching roster row (the optional `workerCounty` is unused by the
reminder engines and omitted). -/
structure WorkerInfo where
  workerName : String
  workerEmail : String
  supervisorName : String
  supervisorEmail : String
deriving DecidableEq, Repr

/-- The resolved global configuration plus the roster-lookup boundary. -/
structure GlobalEnv where
  mainWorkerName : String
  mainWorkerEmail : String
  mainSupervisorName : String
  mainSupervisorEmail : String
  ssmName : String
  ssmEmail : String
  workerOfficeExtension : String
  workerCellNumber : String
  /-- `getWorkerInfoByName(name)`: first match across the roster tabs,
  `none` when no tab yields a match. -/
  getWorkerInfoByName : String → Option WorkerInfo

/-! ## Email templates (Emails.js)

Template literals are embedded as their interpolation segments in source
order; inter-segment whitespace is normalised to single spaces and
apostrophes in prose are expanded (neither is inspected by any claim). -/

/-- `getEmailSignatureHtml()`. -/
def getEmailSignatureHtml (env : GlobalEnv) : List String :=
  let signatureImageUrl := "https://drive.google.com/uc?export=view&id=14hutBSg3irYox5g8rMQJYUVYY1A885L1"
  let officeExt := jsOr env.workerOfficeExtension "20657"
  let cellNumber := jsOr env.workerCellNumber "681-3833-4019"
  ["<br/><br/> <img src=\"", signatureImageUrl,
   "\" alt=\"Department of Human Services Logo\" style=\"width:200px; height:auto; margin-bottom:10px;\" /> <p><strong>",
   jsOr env.mainWorkerName "Ellie Brewer",
   "</strong><br/> Child Protective Service Worker<br/> Bureau for Social Services<br/> Kanawha County Department of Health and Human Resources<br/> 4190 Washington St. W<br/> Charleston, WV 25313</p> <p>P: 304-746-2360 ext. ",
   officeExt, " (Office)<br/> P: ", cellNumber, " (Cell)<br/> F: 304-558-0798</p>"]

/-- `getStandardSummaryReminderHtml(lastName, summaryLink, isDueToday)`. -/
def getStandardSummaryReminderHtml (env : GlobalEnv) (lastName summaryLink : String)
    (isDueToday : Bool) : List String :=
  let whenText := if isDueToday then "due today" else "due tomorrow"
  ["<p>Hey ", env.mainWorkerName, ",</p> <p>The ", lastName, " summary is ", whenText,
   ". A link to the summary is included below to remove a barrier to completing this task and help avoid distraction: </p> <p><a href=\"",
   summaryLink, "\">", summaryLink, "</a></p> <br></br> "] ++ getEmailSignatureHtml env

/-- `getSupervisorIncludedSummaryReminderHtml(lastName, daysLate, followUpDate, summaryLink)`. -/
def getSupervisorIncludedSummaryReminderHtml (env : GlobalEnv)
    (lastName : String) (daysLate : Int) (followUpDate summaryLink : String) : List String :=
  ["<p>Hey ", env.mainWorkerName, ",</p> <p>The ", lastName, " summary is ",
   toString daysLate,
   " days late. You should get it submitted soon. If the summary is not submitted by ",
   followUpDate, ", ", env.mainSupervisorName,
   " will be required to go with you, and they do not want that.</p> <p>A link to the summary is included below to remove a barrier to completing this task and help avoid distraction:</p> <p><a href=\"",
   summaryLink, "\">", summaryLink, "</a></p> <br></br> "] ++ getEmailSignatureHtml env

/-- `getReprimandingSummaryReminderHtml(lastName, remindersSent, daysUntilHearing,
supervisorRemindersSent, dueDateFormatted, summaryLink)`. -/
def getReprimandingSummaryReminderHtml (env : GlobalEnv) (lastName : String)
    (remindersSent daysUntilHearing supervisorRemindersSent : Int)
    (dueDateFormatted summaryLink : String) : List String :=
  ["<p>", env.mainWorkerName, ",</p> <p>You have now received ", toString remindersSent,
   " reminders about the ", lastName, " summary being due on ", dueDateFormatted,
   ".</p> <p>You only have ", toString daysUntilHearing, " days until this hearing and ",
   env.mainSupervisorName, " is required to attend with you.</p> <p>", env.mainSupervisorName,
   " has been receiving these reminders for the past ", toString supervisorRemindersSent,
   " days and now ", env.ssmName,
   " is included as well.</p> <p>You need to submit this ASAP so that you do not have lawyers calling ",
   env.mainSupervisorName, " or ", env.ssmName,
   ", which could result in disciplinary action.</p> <p>A link to the summary is included below to remove a barrier to completing this task and help avoid distraction:</p> <p><a href=\"",
   summaryLink, "\">", summaryLink, "</a></p> <br></br> "] ++ getEmailSignatureHtml env

/-- `getStandardContactReminderHtml(...)` (before the last week of the month). -/
def getStandardContactReminderHtml (env : GlobalEnv)
    (workerName supervisorName childName caseID dateSeen : String)
    (daysSinceSeen daysLeftInMonth : Int) : List String :=
  ["<p>Hello ", workerName, ",</p> <p>This is a reminder that you last saw <strong>",
   childName, "</strong> (Case ID: ", caseID, ") ", toString daysSinceSeen,
   " days ago on ", dateSeen, ". There are only ", toString daysLeftInMonth,
   " days remaining in the month, and it is important that the contact is entered as soon as possible to ensure accurate and timely reporting.</p> <p>Failure to enter the contact by the end of the month will negatively impact my contact compliance percentage. If the contact is not entered by the last week of the month, ",
   supervisorName, ", your supervisor, and ", env.ssmName,
   " will be added onto these emails.</p> <p>This is an automated message and will be sent daily until the contact is entered and ",
   env.mainWorkerName, " is notified. ", env.mainWorkerName,
   " is included in this email so you can reply to this message to let them know if a contact has been entered.</p> <p>Thank you for your prompt attention to this matter.</p> <br></br> "]
  ++ getEmailSignatureHtml env

/-- `getReprimandingContactReminderHtml(...)` (last week of the month). -/
def getReprimandingContactReminderHtml (env : GlobalEnv)
    (workerName supervisorName childName caseID dateSeen : String)
    (daysSinceSeen daysRemaining : Int) : List String :=
  ["<p>Hello ", workerName, ",</p> <p>This is a reminder that you last saw <strong>",
   childName, "</strong> (Case ID: ", caseID, ") ", toString daysSinceSeen,
   " days ago on ", dateSeen,
   ". The month is almost over, and it is critical that the contact is entered immediately to maintain compliance.</p> <p>There are only ",
   toString daysRemaining,
   " remaining this month. Since it is the final week of the month, your supervisor ",
   supervisorName, " and ", env.ssmName,
   " have been added to this email.</p> <p>This is an automated message and will be sent daily until the contact is entered and ",
   env.mainWorkerName, " is notified. ", env.mainWorkerName,
   " is included in this email so you can reply to this message to let them know if a contact has been entered.</p> <p>Thank you for your immediate attention to this matter.</p> <br></br> "]
  ++ getEmailSignatureHtml env

/-- `getPostMonthContactReminderHtml(...)` (after the month of contact). -/
def getPostMonthContactReminderHtml (env : GlobalEnv)
    (workerName supervisorName childName caseID dateSeen : String) : List String :=
  ["<p>Hello ", workerName,
   ",</p> <p>This is an overdue reminder that you last saw <strong>", childName,
   "</strong> (Case ID: ", caseID, "), seen on ", dateSeen,
   ". The contact for this child is now past due for the previous month and must be entered immediately.</p> <p>Your supervisor ",
   supervisorName, " and ", env.ssmName,
   " have been notified of this delay and may follow up with you directly.</p> <p>This is an automated message and will continue to be sent every Monday until the contact is entered and ",
   env.mainWorkerName, " is notified. ", env.mainWorkerName,
   " is included in this email so you can reply to this message to let them know if a contact has been entered.</p> <p>Thank you for your urgent attention to this matter.</p> <br></br> "]
  ++ getEmailSignatureHtml env

/-! ## Summary-Reminder Engine (SummaryReminders.js) -/

/-- Escalation tier of a summary row (which branch of the if-chain in
`sendSummaryReminders` fires; `noneTier` = no branch). -/
inductive STier where
  | preDue | dueToday | minorOverdue | severeOverdue | noneTier
deriving DecidableEq, Repr

/-- One data row of the first Case Tracker sheet (columns used by
`sendSummaryReminders`): `row[0]`, `row[4]`, `row[7]`, `row[9] === true`,
`row[12]`.  Empty date cells are `none`. -/
structure SummaryRow where
  fullName : String
  courtDateRaw : Option Int
  dueDateRaw : Option Int
  submitted : Bool
  summaryLink : String
deriving DecidableEq, Repr

/-- Last-name extraction from `"LastName, FirstName"`; falls back to the
trimmed full name (empty stays empty). -/
def parseLastName (fullName : String) : String :=
  if fullName ≠ "" ∧ containsChar fullName ',' then jsTrim ((jsSplit fullName ',').headD "")
  else jsTrim fullName

/-- `daysLate = Math.floor((today - dueDate) / (1000*60*60*24))`. -/
def summaryDaysLate (today dueDate : Int) : Int := jsFloorDiv (today - dueDate) msPerDay

/-- The ordered tier decision of `sendSummaryReminders`:
`firstReminderDate` is `dueDate` with `setDate(getDate - 1)`; the first
two branches compare `toDateString()` values. -/
def summaryTier (today dueDate : Int) : STier :=
  if jsSameDay today (jsSetDate dueDate (jsGetDate dueDate - 1)) then .preDue
  else if jsSameDay today dueDate then .dueToday
  else if 0 < summaryDaysLate today dueDate ∧ summaryDaysLate today dueDate < 7 then .minorOverdue
  else if 7 ≤ summaryDaysLate today dueDate then .severeOverdue
  else .noneTier

/-- Per-row observable result of the `sendSummaryReminders` loop body. -/
inductive SOutcome where
  | skipped
  | noEmail
  | sent (tier : STier) (recipients : List String) (subject : String)
  | sendFailed (tier : STier) (recipients : List String) (subject : String)
deriving DecidableEq, Repr

/-- The blank-address filter applied right before dispatch:
`recipients.filter(email => email && email.trim() !== "")`. -/
def jsFilterEmails (l : List String) : List String :=
  l.filter (fun e => e != "" && jsTrim e != "")

/-- One iteration of the `sendSummaryReminders` row loop.  `ok` tells
whether the mail transport succeeds for this row (`sendEmailWithHtml`
throwing is caught and logged).  `toLocaleDateString()` is modelled as
`MM/dd/yyyy` like `Utilities.formatDate`. -/
def processSummaryRow (env : GlobalEnv) (ok : Bool) (today : Int) (row : SummaryRow) : SOutcome :=
  let lastName := parseLastName row.fullName
  match row.dueDateRaw with
  | none => .skipped
  | some dueDate =>
    if row.submitted ∨ lastName = "" then .skipped
    else
      let daysLate := summaryDaysLate today dueDate
      let daysUntilHearing :=
        match row.courtDateRaw with
        | some courtDate => jsCeilDiv (courtDate - today) msPerDay
        | none => 0
      let formattedFollowUpDate := formatDateMMDDYYYY (jsSetDate dueDate (jsGetDate dueDate + 6))
      let remindersSent := max 0 daysLate
      let supervisorRemindersSent := max 0 (daysLate - 1)
      let tier := summaryTier today dueDate
      let sel : String × List String × List String :=
        match tier with
        | .preDue => ("Summary Due Tomorrow",
            getStandardSummaryReminderHtml env lastName row.summaryLink false,
            [env.mainWorkerEmail])
        | .dueToday => ("Summary Due Today",
            getStandardSummaryReminderHtml env lastName row.summaryLink true,
            [env.mainWorkerEmail])
        | .minorOverdue => ("Summary Overdue: " ++ lastName,
            getSupervisorIncludedSummaryReminderHtml env lastName daysLate
              formattedFollowUpDate row.summaryLink,
            [env.mainWorkerEmail, env.mainSupervisorEmail])
        | .severeOverdue => ("Urgent: " ++ lastName ++ " Summary Severely Overdue",
            getReprimandingSummaryReminderHtml env lastName remindersSent daysUntilHearing
              supervisorRemindersSent (formatDateMMDDYYYY dueDate) row.summaryLink,
            [env.mainWorkerEmail, env.mainSupervisorEmail, env.ssmEmail])
        | .noneTier => ("", [], [])
      let emailSubject := sel.1
      let emailHtmlBody := sel.2.1
      let recipients := sel.2.2
      if recipients = [] ∨ emailSubject = "" ∨ joinSegs emailHtmlBody = "" then .noEmail
      else if ok then .sent tier (jsFilterEmails recipients) emailSubject
      else .sendFailed tier (jsFilterEmails recipients) emailSubject

/-- The `sendSummaryReminders` scan over the data rows (`i` starts at 1,
skipping the header); `sendOk i` is the transport oracle for row `i`. -/
def sendSummaryReminders (env : GlobalEnv) (sendOk : Nat → Bool) (today : Int) :
    Nat → List SummaryRow → List SOutcome
  | _, [] => []
  | i, row :: rest =>
      processSummaryRow env (sendOk i) today row ::
        sendSummaryReminders env sendOk today (i + 1) rest

/-! ## Contact-Reminder Engine (ContactReminders.js) -/

/-- Which contact template `sendContactReminderRow` picks. -/
inductive CTier where
  | standard | reprimanding | postMonth
deriving DecidableEq, Repr

/-- One data row of a `"<Month> Contacts"` sheet (columns A..H).
`dateSeenRaw` mirrors the two source checks on column C: `none` is an
empty cell (falsy, caught by the missing-data check), `some none` a
non-empty cell that `new Date(...)` cannot parse (caught by the `isNaN`
check), `some (some t)` a parseable date with timestamp `t`. -/
structure ContactRow where
  childName : String
  caseID : String
  dateSeenRaw : Option (Option Int)
  seenBy : String
  dateContactEntered : String
  lastReminderSent : String
  missed : String
  reasonMissed : String
deriving DecidableEq, Repr

/-- The parsed `dateSeen` of a row; callers of `sendContactReminderRow`
guarantee `dateSeenRaw = some (some t)` (the source re-parses the already
validated cell). -/
def ContactRow.dateSeenValue (row : ContactRow) : Int :=
  match row.dateSeenRaw with
  | some (some t) => t
  | _ => 0

/-- `processContactSheet`'s prior-month test:
`dateSeen.getMonth() < today.getMonth() || dateSeen.getFullYear() < today.getFullYear()`. -/
def isPriorMonth (dateSeen today : Int) : Bool :=
  jsGetMonth dateSeen < jsGetMonth today || jsGetFullYear dateSeen < jsGetFullYear today

/-- The template choice inside `sendContactReminderRow` (note: the
post-month branch compares `getMonth()` only, with no year comparison). -/
def contactTier (today dateSeen : Int) : CTier :=
  if jsGetMonth dateSeen < jsGetMonth today then .postMonth
  else if daysRemainingInMonth today ≤ 7 then .reprimanding
  else .standard

/-- Worker-identity resolution of `sendContactReminderRow`: the
pre-configured main identities when `MAIN_WORKER_NAME === seenBy`,
otherwise the roster lookup (`null` means the row is skipped). -/
def resolveWorker (env : GlobalEnv) (seenBy : String) : Option WorkerInfo :=
  if env.mainWorkerName == seenBy then
    some ⟨env.mainWorkerName, env.mainWorkerEmail, env.mainSupervisorName, env.mainSupervisorEmail⟩
  else env.getWorkerInfoByName seenBy

/-- The email request `sendContactReminderRow` hands to
`GmailApp.sendEmail`, tagged with the chosen template. -/
structure ContactEmailReq where
  recipients : List String
  bcc : List String
  subject : String
  tier : CTier
  body : List String
deriving DecidableEq, Repr

/-- Per-row observable result of the contact scan. -/
inductive ContactOutcome where
  | skippedMissing
  | skippedEntered
  | skippedInvalidDate
  | skippedPrior
  | skippedNoWorker
  | sendFailed (req : ContactEmailReq)
  | sent (req : ContactEmailReq)
deriving DecidableEq, Repr

/-- `sendContactReminderRow(rowData, today, sheet, rowIndex)`; `ok` tells
whether `GmailApp.sendEmail` succeeds (a throw is caught, logged, and the
function returns `false`). -/
def sendContactReminderRow (env : GlobalEnv) (ok : Bool) (today : Int)
    (row : ContactRow) : ContactOutcome :=
  let dateSeen := row.dateSeenValue
  let daysLeftInMonth := daysRemainingInMonth today
  let daysSinceSeen := jsFloorDiv (today - dateSeen) msPerDay
  match resolveWorker env row.seenBy with
  | none => .skippedNoWorker
  | some info =>
    let fmtSeen := formatDateMMDDYYYY dateSeen
    let tier := contactTier today dateSeen
    let body :=
      match tier with
      | .postMonth =>
          getPostMonthContactReminderHtml env info.workerName info.supervisorName
            row.childName row.caseID fmtSeen
      | .reprimanding =>
          getReprimandingContactReminderHtml env info.workerName info.supervisorName
            row.childName row.caseID fmtSeen daysSinceSeen daysLeftInMonth
      | .standard =>
          getStandardContactReminderHtml env info.workerName info.supervisorName
            row.childName row.caseID fmtSeen daysSinceSeen daysLeftInMonth
    let recipients := [info.workerEmail]
    let bcc := [info.supervisorEmail] ++ (if daysLeftInMonth ≤ 7 then [env.ssmEmail] else [])
    let req : ContactEmailReq :=
      ⟨recipients, bcc, "Contact Entry Reminder – " ++ row.childName, tier, body⟩
    if ok then .sent req else .sendFailed req

/-- One iteration of the `processContactSheet` row loop: the three skip
checks, then `sendContactReminderRow`. -/
def processContactRow (env : GlobalEnv) (ok : Bool) (today : Int) (isMonday : Bool)
    (row : ContactRow) : ContactOutcome :=
  if row.childName = "" ∨ row.dateSeenRaw = none ∨ row.seenBy = "" then .skippedMissing
  else if row.dateContactEntered ≠ "" then .skippedEntered
  else if row.dateSeenRaw = some none then .skippedInvalidDate
  else if isPriorMonth row.dateSeenValue today ∧ ¬ isMonday then .skippedPrior
  else sendContactReminderRow env ok today row

/-- `processContactSheet(sheet, today, currentMonth, isMonday)`: scan the
data rows top to bottom (`i` starts at 1, skipping the header row);
`sendOk i` is the transport oracle for row `i`. -/
def processContactSheet (env : GlobalEnv) (sendOk : Nat → Bool) (today : Int)
    (isMonday : Bool) : Nat → List ContactRow → List ContactOutcome
  | _, [] => []
  | i, row :: rest =>
      processContactRow env (sendOk i) today isMonday row ::
        processContactSheet env sendOk today isMonday (i + 1) rest

/-- Whether an outcome was a successful send. -/
def isSentOutcome : ContactOutcome → Bool
  | .sent _ => true
  | _ => false

/-- The sheet's `remindersSent` counter: successful sends only. -/
def remindersSentCount (os : List ContactOutcome) : Nat :=
  (os.filter isSentOutcome).length

/-- The row after the scan: `Last Reminder Sent` (column F) is written only
in the success path of `sendContactReminderRow`. -/
def contactRowAfter (today : Int) (row : ContactRow) (o : ContactOutcome) : ContactRow :=
  match o with
  | .sent _ => { row with lastReminderSent := formatDateMMDDYYYY today }
  | _ => row

/-- The email request of an outcome that reached the transport. -/
def outcomeReq : ContactOutcome → Option ContactEmailReq
  | .sent req => some req
  | .sendFailed req => some req
  | _ => none

/-! ## Monthly runner (`sendMonthlyContactReminders`) -/

/-- A sheet of the Case Tracker spreadsheet. -/
structure ContactSheet where
  name : String
  rows : List ContactRow
deriving DecidableEq, Repr

/-- The canonical month names of `getMonthNumberFromName`. -/
def months : List String :=
  ["January", "February", "March", "April", "May", "June",
   "July", "August", "September", "October", "November", "December"]

/-- JS `Array.prototype.findIndex`: index of the first match, `-1` if none. -/
def jsFindIndex (p : String → Bool) : List String → Int
  | [] => -1
  | x :: xs => if p x then 0 else
      if jsFindIndex p xs = -1 then -1 else jsFindIndex p xs + 1

/-- `getMonthNumberFromName(name)`: 0-based month index via a
case-insensitive `findIndex`, `-1` when unrecognized. -/
def getMonthNumberFromName (name : String) : Int :=
  jsFindIndex (fun m => lowerStr m == lowerStr name) months

/-- The sheet-name filter `^([A-Za-z]+) Contacts$`: returns the captured
month-name group. -/
def monthMatch (name : String) : Option String :=
  match jsSplit name ' ' with
  | [m, c] => if c = "Contacts" ∧ m ≠ "" ∧ m.data.all Char.isAlpha then some m else none
  | _ => none

/-- Parsing of `CONTACT_COMPLETE_MONTHS`:
`split(",").map(trim).filter(Boolean)`. -/
def splitCompleteMonths (s : String) : List String :=
  ((jsSplit s ',').map jsTrim).filter (fun x => x ≠ "")

/-- `completeMonths.join(", ")`, the value persisted back into
`CONTACT_COMPLETE_MONTHS` by `updateGlobalVariable`. -/
def joinComma : List String → String
  | [] => ""
  | [x] => x
  | x :: xs => x ++ ", " ++ joinComma xs

/-- The completion-aggregation step after a sheet scan: on the weekly
catch-up day with zero reminders sent, `completeMonths.push(monthName)`
(a plain list append). -/
def completionAggregationStep (cm : List String) (monthName : String)
    (isMonday : Bool) (sent : Nat) : List String :=
  if isMonday ∧ sent = 0 then cm ++ [monthName] else cm

/-- The sheet loop of `sendMonthlyContactReminders`, threading the
in-memory `completeMonths` list.  Returns the final list and, per scanned
sheet, its name and row outcomes.  `sendOk j i` is the transport oracle
for row `i` of the `j`-th sheet. -/
def runContactSheets (env : GlobalEnv) (sendOk : Nat → Nat → Bool) (today : Int)
    (currentMonth : Int) (isMonday : Bool) :
    Nat → List ContactSheet → List String → List String × List (String × List ContactOutcome)
  | _, [], cm => (cm, [])
  | j, s :: rest, cm =>
    match monthMatch s.name with
    | none => runContactSheets env sendOk today currentMonth isMonday (j + 1) rest cm
    | some monthName =>
      if getMonthNumberFromName monthName > currentMonth then
        runContactSheets env sendOk today currentMonth isMonday (j + 1) rest cm
      else if cm.contains monthName then
        runContactSheets env sendOk today currentMonth isMonday (j + 1) rest cm
      else
        let outcomes := processContactSheet env (sendOk j) today isMonday 1 s.rows
        let cm' := completionAggregationStep cm monthName isMonday (remindersSentCount outcomes)
        let r := runContactSheets env sendOk today currentMonth isMonday (j + 1) rest cm'
        (r.1, (s.name, outcomes) :: r.2)

/-- `sendMonthlyContactReminders()`: parse `CONTACT_COMPLETE_MONTHS`,
derive `currentMonth` and the Monday flag from `today`, and loop over all
sheets. -/
def sendMonthlyContactReminders (env : GlobalEnv) (sendOk : Nat → Nat → Bool)
    (today : Int) (contactCompleteMonths : String) (sheets : List ContactSheet) :
    List String × List (String × List ContactOutcome) :=
  runContactSheets env sendOk today (jsGetMonth today) (jsGetDay today == 1)
    0 sheets (splitCompleteMonths contactCompleteMonths)

/-! ## Concrete configurations and rows for witnesses and counterexamples -/

/-- A concrete resolved configuration (the roster lookup finds nobody, so
only the main-worker identity resolves). -/
def envA : GlobalEnv :=
  { mainWorkerName := "Ellie", mainWorkerEmail := "worker@example.com",
    mainSupervisorName := "Sup", mainSupervisorEmail := "sup@example.com",
    ssmName := "Manager", ssmEmail := "ssm@example.com",
    workerOfficeExtension := "", workerCellNumber := "",
    getWorkerInfoByName := fun _ => none }

/-- A qualifying contact row seen by the main worker on 2024-01-03, with no
contact entered. -/
def rowA : ContactRow :=
  { childName := "Child A", caseID := "C-1",
    dateSeenRaw := some (some (msOfDay 2024 1 3)), seenBy := "Ellie",
    dateContactEntered := "", lastReminderSent := "", missed := "",
    reasonMissed := "" }

/-- A contact row seen on 2023-12-15 (prior period across a year
boundary). -/
def rowDec : ContactRow := { rowA with dateSeenRaw := some (some (msOfDay 2023 12 15)) }

/-- A contact row seen in the last week of January 2024. -/
def rowLate : ContactRow := { rowA with dateSeenRaw := some (some (msOfDay 2024 1 20)) }

/-- A contact row whose contact has already been entered. -/
def rowEntered : ContactRow := { rowA with dateContactEntered := "01/05/2024" }

/-- A contact row assigned to a worker the roster lookup cannot find. -/
def rowGhost : ContactRow := { rowA with seenBy := "Ghost" }

/-- A non-submitted summary row due 2024-03-10. -/
def srowA : SummaryRow :=
  { fullName := "Doe, Jane", courtDateRaw := some (msOfDay 2024 4 1),
    dueDateRaw := some (msOfDay 2024 3 10), submitted := false,
    summaryLink := "http://x" }

/-- The email request produced for `rowLate` on 2024-01-28. -/
def reqLate : ContactEmailReq :=
  (outcomeReq (sendContactReminderRow envA true (msOfDay 2024 1 28) rowLate)).getD
    ⟨[], [], "", CTier.standard, []⟩

/-- A contact row seen on 2024-02-15 (post-month relative to March). -/
def rowFeb : ContactRow := { rowA with dateSeenRaw := some (some (msOfDay 2024 2 15)) }

/-- The email request produced for `rowFeb` on Monday 2024-03-04. -/
def reqFebMar : ContactEmailReq :=
  (outcomeReq (sendContactReminderRow envA true (msOfDay 2024 3 4) rowFeb)).getD
    ⟨[], [], "", CTier.standard, []⟩

/-- A sheet whose name matches the pattern but has an unrecognized month
name. -/
def sheetSmarch : ContactSheet := ⟨"Smarch Contacts", [rowA]⟩

/-- A January sheet whose only row is assigned to an unknown worker. -/
def sheetJanGhost : ContactSheet := ⟨"January Contacts", [rowGhost]⟩

/-! ## Arithmetic facts about the date model -/

theorem msPerDay_pos : (0 : Int) < msPerDay := by norm_num [msPerDay]

theorem msPerDay_ne : (msPerDay : Int) ≠ 0 := by norm_num [msPerDay]

/-- The civil day of a midnight-aligned timestamp is its day number. -/
theorem epochDay_mul (k : Int) : epochDay (k * msPerDay) = k := by
  unfold epochDay
  rw [Int.fdiv_eq_ediv _ (le_of_lt msPerDay_pos), Int.mul_ediv_cancel _ msPerDay_ne]

/-- `daysLate` against a midnight-aligned due date counts whole civil days,
whatever the time of day of `today`. -/
theorem summaryDaysLate_mul (today k : Int) :
    summaryDaysLate today (k * msPerDay) = epochDay today - k := by
  unfold summaryDaysLate jsFloorDiv epochDay
  rw [Int.fdiv_eq_ediv _ (le_of_lt msPerDay_pos), Int.fdiv_eq_ediv _ (le_of_lt msPerDay_pos)]
  have h : today - k * msPerDay = today + (-k) * msPerDay := by ring
  rw [h, Int.add_mul_ediv_right _ _ msPerDay_ne]
  ring

/-- `setDate(getDate() - 1)` always moves a timestamp back exactly one day
(also across a month boundary, via JS day-0 normalisation). -/
theorem jsSetDate_pred (t : Int) : jsSetDate t (jsGetDate t - 1) = t - msPerDay := by
  unfold jsSetDate; ring

/-! ## Claims -/

/-- C1: for every non-submitted SummaryRow with a parseable due date (a
midnight-aligned timestamp `k * msPerDay`) and case name, the summary tier
selection is total and mutually exclusive over integer `daysLate ≥ -1`:
the tiers are characterised by the disjoint exhaustive ranges
`daysLate = -1` (pre-due, `today = dueDate - 1 day`), `daysLate = 0`
(due-today), `1 ≤ daysLate ≤ 6` (minor-overdue), `daysLate ≥ 7`
(severe-overdue), and the `noneTier` outcome (no email) occurs exactly
when `daysLate < -1`. -/
theorem summaryTier_total_exclusive (today k : Int) :
    (-1 ≤ summaryDaysLate today (k * msPerDay) →
      ((summaryTier today (k * msPerDay) = STier.preDue ↔
          summaryDaysLate today (k * msPerDay) = -1) ∧
       (summaryTier today (k * msPerDay) = STier.dueToday ↔
          summaryDaysLate today (k * msPerDay) = 0) ∧
       (summaryTier today (k * msPerDay) = STier.minorOverdue ↔
          (1 ≤ summaryDaysLate today (k * msPerDay) ∧
           summaryDaysLate today (k * msPerDay) ≤ 6)) ∧
       (summaryTier today (k * msPerDay) = STier.severeOverdue ↔
          7 ≤ summaryDaysLate today (k * msPerDay)) ∧
       summaryTier today (k * msPerDay) ≠ STier.noneTier)) ∧
    (summaryTier today (k * msPerDay) = STier.noneTier ↔
      summaryDaysLate today (k * msPerDay) < -1) := by
  have hfrd : jsSetDate (k * msPerDay) (jsGetDate (k * msPerDay) - 1) = (k - 1) * msPerDay := by
    rw [jsSetDate_pred]; ring
  have hdl := summaryDaysLate_mul today k
  unfold summaryTier jsSameDay
  simp only [hfrd, epochDay_mul, hdl]
  split_ifs with h1 h2 h3 h4 <;> simp_all <;> omega

/-- Witness for C1 at `today` = 2024-03-10, `dueDate` = day 19792
(2024-03-10): the due-today characterisation holds. -/
theorem summaryTier_total_exclusive_witness :
    summaryTier (msOfDay 2024 3 10) (19792 * msPerDay) = STier.dueToday ↔
      summaryDaysLate (msOfDay 2024 3 10) (19792 * msPerDay) = 0 :=
  ((summaryTier_total_exclusive (msOfDay 2024 3 10) 19792).1 (by decide)).2.1

/-- A string with a non-blank trim is itself non-empty. -/
theorem trim_ne_of_trim_ne (e : String) (h : jsTrim e ≠ "") : e ≠ "" :=
  fun he => h (by rw [he]; rfl)

/-- The blank-address filter keeps a list of non-blank addresses intact. -/
theorem jsFilterEmails_id (l : List String) (h : ∀ e ∈ l, jsTrim e ≠ "") :
    jsFilterEmails l = l := by
  unfold jsFilterEmails
  apply List.filter_eq_self.mpr
  intro e he
  have h1 := h e he
  have h2 := trim_ne_of_trim_ne e h1
  simp [h1, h2]

/-- C7: every summary email that fires has the tier-determined recipient
set: pre-due and due-today go to the worker only, minor-overdue to
worker + supervisor, severe-overdue to worker + supervisor + manager
(given non-blank configured addresses, which the blank-address filter
then keeps); and in the concrete scenario `dueDate` = 2024-03-10,
`today` = 2024-03-20 the row is 10 days late and severe-overdue. -/
theorem summary_recipients_by_tier
    (env : GlobalEnv) (ok : Bool) (today : Int) (row : SummaryRow)
    (t : STier) (r : List String) (subj : String)
    (hw : jsTrim env.mainWorkerEmail ≠ "") (hs : jsTrim env.mainSupervisorEmail ≠ "")
    (hm : jsTrim env.ssmEmail ≠ "")
    (h : processSummaryRow env ok today row = SOutcome.sent t r subj) :
    ((t = STier.preDue ∨ t = STier.dueToday) → r = [env.mainWorkerEmail]) ∧
    (t = STier.minorOverdue → r = [env.mainWorkerEmail, env.mainSupervisorEmail]) ∧
    (t = STier.severeOverdue →
      r = [env.mainWorkerEmail, env.mainSupervisorEmail, env.ssmEmail]) ∧
    summaryDaysLate (msOfDay 2024 3 20) (msOfDay 2024 3 10) = 10 ∧
    summaryTier (msOfDay 2024 3 20) (msOfDay 2024 3 10) = STier.severeOverdue := by
  have hfw : jsFilterEmails [env.mainWorkerEmail] = [env.mainWorkerEmail] :=
    jsFilterEmails_id _ (by intro e he; simp at he; subst he; exact hw)
  have hfws : jsFilterEmails [env.mainWorkerEmail, env.mainSupervisorEmail] =
      [env.mainWorkerEmail, env.mainSupervisorEmail] :=
    jsFilterEmails_id _ (by intro e he; simp at he; rcases he with rfl | rfl; exacts [hw, hs])
  have hfwsm : jsFilterEmails [env.mainWorkerEmail, env.mainSupervisorEmail, env.ssmEmail] =
      [env.mainWorkerEmail, env.mainSupervisorEmail, env.ssmEmail] :=
    jsFilterEmails_id _
      (by intro e he; simp at he; rcases he with rfl | rfl | rfl; exacts [hw, hs, hm])
  unfold processSummaryRow at h
  cases hdd : row.dueDateRaw with
  | none => rw [hdd] at h; exact SOutcome.noConfusion h
  | some dueDate =>
    simp only [hdd] at h
    by_cases hsub : (row.submitted = true ∨ parseLastName row.fullName = "")
    · rw [if_pos hsub] at h; exact SOutcome.noConfusion h
    · rw [if_neg hsub] at h
      cases htier : summaryTier today dueDate <;> simp only [htier] at h <;>
        split_ifs at h <;>
        first
        | exact SOutcome.noConfusion h
        | (injection h with ht hr hsj
           subst ht; subst hr
           refine ⟨fun hc => ?_, fun hc => ?_, fun hc => ?_, by decide, by decide⟩ <;>
             simp_all [hfw, hfws, hfwsm])

/-- Witness for C7: a concrete severe-overdue row fires to
worker + supervisor + manager. -/
theorem summary_recipients_by_tier_witness :
    ([("worker@example.com" : String), "sup@example.com", "ssm@example.com"] :
        List String) = ["worker@example.com", "sup@example.com", "ssm@example.com"] := by
  have h := summary_recipients_by_tier
    { mainWorkerName := "Ellie", mainWorkerEmail := "worker@example.com",
      mainSupervisorName := "Sup", mainSupervisorEmail := "sup@example.com",
      ssmName := "Manager", ssmEmail := "ssm@example.com",
      workerOfficeExtension := "", workerCellNumber := "",
      getWorkerInfoByName := fun _ => none }
    true (msOfDay 2024 3 20)
    { fullName := "Doe, Jane", courtDateRaw := some (msOfDay 2024 4 1),
      dueDateRaw := some (msOfDay 2024 3 10), submitted := false,
      summaryLink := "http://x" }
    STier.severeOverdue
    ["worker@example.com", "sup@example.com", "ssm@example.com"]
    "Urgent: Doe Summary Severely Overdue"
    (by decide) (by decide) (by decide) (by decide)
  exact h.2.2.1 rfl

/-- C2 counterexample: on 2024-01-28 (3 days left in January, within the
reprimanding window `daysRemainingInMonth ≤ 7`) a sent contact reminder
has the worker as the *only* visible recipient; the supervisor appears
only in the bcc list, so the claim that worker and supervisor are both
visible recipients in the reprimanding tier is false. -/
theorem contact_supervisor_not_visible_cx :
    daysRemainingInMonth (msOfDay 2024 1 28) ≤ 7 ∧
    (outcomeReq (sendContactReminderRow envA true (msOfDay 2024 1 28) rowLate)).map
        (fun r => (r.recipients, r.bcc, r.tier)) =
      some (["worker@example.com"], ["sup@example.com", "ssm@example.com"],
        CTier.reprimanding) := by
  decide

/-- C2 (amended): for every contact reminder that reaches the transport,
the resolved worker is the only visible recipient in every tier; the
supervisor is always bcc'd (never visible, including the reprimanding
window), and the manager is appended to the bcc exactly when
`daysRemainingInMonth(today) ≤ 7`. -/
theorem contact_recipients_structure
    (env : GlobalEnv) (ok : Bool) (today : Int) (row : ContactRow)
    (info : WorkerInfo) (req : ContactEmailReq)
    (hres : resolveWorker env row.seenBy = some info)
    (h : sendContactReminderRow env ok today row = ContactOutcome.sent req) :
    req.recipients = [info.workerEmail] ∧
    req.bcc = [info.supervisorEmail] ++
      (if daysRemainingInMonth today ≤ 7 then [env.ssmEmail] else []) := by
  unfold sendContactReminderRow at h
  rw [hres] at h
  cases ok with
  | false => exact ContactOutcome.noConfusion h
  | true =>
    injection h with hreq
    subst hreq
    exact ⟨rfl, rfl⟩

set_option maxRecDepth 4000 in
/-- Witness for C2 (amended) at the concrete reprimanding-window input. -/
theorem contact_recipients_structure_witness :
    reqLate.recipients = ["worker@example.com"] ∧
    reqLate.bcc = ["sup@example.com"] ++
      (if daysRemainingInMonth (msOfDay 2024 1 28) ≤ 7 then [envA.ssmEmail] else []) :=
  contact_recipients_structure envA true (msOfDay 2024 1 28) rowLate
    ⟨"Ellie", "worker@example.com", "Sup", "sup@example.com"⟩ reqLate
    (by decide) (by decide)

/-- C9: for every contact reminder that is sent, in every tier including
post-month, the manager's address is in the bcc list if and only if
`daysRemainingInMonth(today) ≤ 7` (supervisor and manager addresses
distinct); and a post-month reminder's body nevertheless names the
manager as having been notified. -/
theorem manager_bcc_iff_last_week
    (env : GlobalEnv) (ok : Bool) (today : Int) (row : ContactRow)
    (info : WorkerInfo) (req : ContactEmailReq)
    (hne : env.ssmEmail ≠ info.supervisorEmail)
    (hres : resolveWorker env row.seenBy = some info)
    (h : sendContactReminderRow env ok today row = ContactOutcome.sent req) :
    (env.ssmEmail ∈ req.bcc ↔ daysRemainingInMonth today ≤ 7) ∧
    (req.tier = CTier.postMonth → env.ssmName ∈ req.body) := by
  unfold sendContactReminderRow at h
  rw [hres] at h
  cases ok with
  | false => exact ContactOutcome.noConfusion h
  | true =>
    injection h with hreq
    subst hreq
    constructor
    · by_cases hd : daysRemainingInMonth today ≤ 7 <;> simp [hd, hne]
    · intro ht
      cases hct : contactTier today row.dateSeenValue <;> simp only [hct] at ht ⊢
      · exact CTier.noConfusion ht
      · exact CTier.noConfusion ht
      · simp [getPostMonthContactReminderHtml]

set_option maxRecDepth 4000 in
/-- Witness for C9: a post-month row sent on Monday 2024-03-04 (27 days
left in March, outside the manager window): no manager bcc even though the
body names the manager. -/
theorem manager_bcc_iff_last_week_witness :
    (envA.ssmEmail ∈ reqFebMar.bcc ↔ daysRemainingInMonth (msOfDay 2024 3 4) ≤ 7) ∧
    (reqFebMar.tier = CTier.postMonth → envA.ssmName ∈ reqFebMar.body) :=
  manager_bcc_iff_last_week envA true (msOfDay 2024 3 4) rowFeb
    ⟨"Ellie", "worker@example.com", "Sup", "sup@example.com"⟩ reqFebMar
    (by decide) (by decide) (by decide)

/-- C6: during any contact-sheet scan, a row whose `dateContactEntered`
field is non-empty never produces a sent reminder, for every
configuration, transport oracle, date and Monday flag. -/
theorem contactEntered_never_sent
    (env : GlobalEnv) (sendOk : Nat → Bool) (today : Int) (isMonday : Bool)
    (k : Nat) (rows : List ContactRow) :
    ∀ p ∈ rows.zip (processContactSheet env sendOk today isMonday k rows),
      p.1.dateContactEntered ≠ "" → isSentOutcome p.2 = false := by
  induction rows generalizing k with
  | nil => intro p hp; simp [processContactSheet] at hp
  | cons r rs ih =>
    intro p hp hne
    rw [processContactSheet, List.zip_cons_cons] at hp
    rcases List.mem_cons.mp hp with rfl | hp'
    · show isSentOutcome (processContactRow env (sendOk k) today isMonday r) = false
      rw [processContactRow]
      split_ifs <;> rfl
    · exact ih (k + 1) p hp' hne

/-- Witness for C6: the concrete already-entered row is skipped, not
sent. -/
theorem contactEntered_never_sent_witness :
    isSentOutcome ((rowEntered, ContactOutcome.skippedEntered) : ContactRow × ContactOutcome).2 = false :=
  contactEntered_never_sent envA (fun _ => true) (msOfDay 2024 1 8) true 1 [rowEntered]
    (rowEntered, ContactOutcome.skippedEntered) (by decide) (by decide)

/-- With a failing transport, `sendContactReminderRow` never reports a
send. -/
theorem sendContactReminderRow_false_not_sent (env : GlobalEnv) (today : Int)
    (row : ContactRow) :
    isSentOutcome (sendContactReminderRow env false today row) = false := by
  rw [sendContactReminderRow]
  cases resolveWorker env row.seenBy <;> rfl

/-- With a failing transport, `processContactRow` never reports a send. -/
theorem processContactRow_false_not_sent (env : GlobalEnv) (today : Int)
    (isMonday : Bool) (row : ContactRow) :
    isSentOutcome (processContactRow env false today isMonday row) = false := by
  rw [processContactRow]
  split_ifs <;> first | rfl | exact sendContactReminderRow_false_not_sent env today row

/-- With a failing transport, a summary row is never reported sent. -/
theorem processSummaryRow_false_not_sent (env : GlobalEnv) (today : Int)
    (row : SummaryRow) :
    ∀ t r s, processSummaryRow env false today row ≠ SOutcome.sent t r s := by
  intro t r s h
  rw [processSummaryRow] at h
  cases hdd : row.dueDateRaw with
  | none => rw [hdd] at h; exact SOutcome.noConfusion h
  | some dueDate =>
    simp only [hdd] at h
    split_ifs at h <;> simp_all

/-- C8: a delivery failure on one row is contained: the row is counted as
not-sent, its `lastReminderSent` cell is left unchanged, and the scan
continues with the remaining rows unchanged — in the contact scan and in
the summary scan alike. -/
theorem delivery_failure_row_isolated
    (env : GlobalEnv) (sendOk : Nat → Bool) (today : Int) (isMonday : Bool)
    (k : Nat) (row : ContactRow) (rows : List ContactRow)
    (srow : SummaryRow) (srows : List SummaryRow)
    (hfail : sendOk k = false) :
    (processContactSheet env sendOk today isMonday k (row :: rows) =
        processContactRow env false today isMonday row ::
          processContactSheet env sendOk today isMonday (k + 1) rows) ∧
    isSentOutcome (processContactRow env false today isMonday row) = false ∧
    contactRowAfter today row (processContactRow env false today isMonday row) = row ∧
    remindersSentCount (processContactSheet env sendOk today isMonday k (row :: rows)) =
      remindersSentCount (processContactSheet env sendOk today isMonday (k + 1) rows) ∧
    (sendSummaryReminders env sendOk today k (srow :: srows) =
        processSummaryRow env false today srow ::
          sendSummaryReminders env sendOk today (k + 1) srows) ∧
    (∀ t r s, processSummaryRow env false today srow ≠ SOutcome.sent t r s) := by
  have hnot := processContactRow_false_not_sent env today isMonday row
  refine ⟨?_, hnot, ?_, ?_, ?_, processSummaryRow_false_not_sent env today srow⟩
  · rw [processContactSheet, hfail]
  · unfold contactRowAfter
    cases ho : processContactRow env false today isMonday row <;> first | rfl |
      (rw [ho] at hnot; exact absurd hnot (by simp [isSentOutcome]))
  · rw [processContactSheet, hfail, remindersSentCount, remindersSentCount,
      List.filter_cons_of_neg (by simp [hnot])]
  · rw [sendSummaryReminders, hfail]

/-- Witness for C8: with a transport that fails on every row, the concrete
qualifying contact row is counted as not-sent and left unchanged. -/
theorem delivery_failure_row_isolated_witness :
    isSentOutcome (processContactRow envA false (msOfDay 2024 1 8) true rowA) = false ∧
    contactRowAfter (msOfDay 2024 1 8) rowA
      (processContactRow envA false (msOfDay 2024 1 8) true rowA) = rowA :=
  ⟨(delivery_failure_row_isolated envA (fun _ => false) (msOfDay 2024 1 8) true 1
      rowA [] srowA [] rfl).2.1,
   (delivery_failure_row_isolated envA (fun _ => false) (msOfDay 2024 1 8) true 1
      rowA [] srowA [] rfl).2.2.1⟩

/-- C3: evaluation at the failing input `dateSeen` = 2023-12-15,
`today` = Monday 2024-01-08.  The December 2023 period (year 2023,
month 11) is strictly earlier than the January 2024 period (2024, 0) and
`processContactSheet`'s own prior-month test agrees (so the row is
skipped on non-catch-up days, here Tuesday 2024-01-09); yet
`sendContactReminderRow`'s template choice compares `getMonth()` only
(11 < 0 is false), so on the catch-up day the row is sent with the
*standard* template, not the post-period one the claim (and the
surrounding code) require. -/
theorem contactTier_prior_period_divergence :
    ((jsGetFullYear (msOfDay 2023 12 15), jsGetMonth (msOfDay 2023 12 15)) = (2023, 11) ∧
     (jsGetFullYear (msOfDay 2024 1 8), jsGetMonth (msOfDay 2024 1 8)) = (2024, 0)) ∧
    isPriorMonth (msOfDay 2023 12 15) (msOfDay 2024 1 8) = true ∧
    jsGetDay (msOfDay 2024 1 8) = 1 ∧
    processContactRow envA true (msOfDay 2024 1 9) false rowDec =
      ContactOutcome.skippedPrior ∧
    contactTier (msOfDay 2024 1 8) (msOfDay 2023 12 15) = CTier.standard ∧
    (outcomeReq (processContactRow envA true (msOfDay 2024 1 8) true rowDec)).map
        (fun r => r.tier) = some CTier.standard := by
  decide

/-- C4 counterexample: the completion-aggregation step is a plain list
append; running it twice in the same run for a zero-send sheet on the
catch-up day makes the label appear twice, both in memory and in the
persisted `CONTACT_COMPLETE_MONTHS` string — not exactly once. -/
theorem completionAggregation_append_twice_cx :
    completionAggregationStep
        (completionAggregationStep [] "January" true 0) "January" true 0 =
      ["January", "January"] ∧
    (splitCompleteMonths (joinComma (completionAggregationStep
        (completionAggregationStep [] "January" true 0) "January" true 0))).count
      "January" = 2 := by
  decide

/-- A label already in the list survives a run with multiplicity
unchanged; the sheet loop only ever appends. -/
theorem runContactSheets_mono (env : GlobalEnv) (sendOk : Nat → Nat → Bool)
    (today currentMonth : Int) (isMonday : Bool) :
    ∀ (sheets : List ContactSheet) (j : Nat) (cm : List String) (a : String),
      a ∈ cm → a ∈ (runContactSheets env sendOk today currentMonth isMonday j sheets cm).1 := by
  intro sheets
  induction sheets with
  | nil => intro j cm a ha; exact ha
  | cons s rest ih =>
    intro j cm a ha
    rw [runContactSheets]
    split
    · exact ih (j + 1) cm a ha
    · split_ifs with h1 h2
      · exact ih (j + 1) cm a ha
      · exact ih (j + 1) cm a ha
      · apply ih
        unfold completionAggregationStep
        split_ifs with h3
        · exact List.mem_append_left _ ha
        · exact ha

/-- C4 (amended): the completion-aggregation step is a guarded list
append, not a set union — executing the step itself twice duplicates the
label (see the counterexample).  Uniqueness over a run is maintained
upstream instead: a sheet whose month label is already present is skipped
before scanning, so over a whole sheet loop a label already present keeps
its multiplicity, and an absent label ends up with multiplicity at most
one. -/
theorem completeMonths_no_duplicate_per_run
    (env : GlobalEnv) (sendOk : Nat → Nat → Bool) (today currentMonth : Int)
    (isMonday : Bool) (sheets : List ContactSheet) (j : Nat) (cm : List String)
    (label : String) :
    (label ∈ cm →
      (runContactSheets env sendOk today currentMonth isMonday j sheets cm).1.count label =
        cm.count label) ∧
    (label ∉ cm →
      (runContactSheets env sendOk today currentMonth isMonday j sheets cm).1.count label ≤ 1) := by
  induction sheets generalizing j cm with
  | nil =>
    refine ⟨fun _ => rfl, fun h => ?_⟩
    show cm.count label ≤ 1
    simp [List.count_eq_zero.mpr h]
  | cons s rest ih =>
    rw [runContactSheets]
    split
    · exact ih (j + 1) cm
    · rename_i mn hm
      split_ifs with h1 h2
      · exact ih (j + 1) cm
      · exact ih (j + 1) cm
      · have hmn : mn ∉ cm := by
          intro hmem
          exact h2 (List.contains_iff_exists_mem_beq.mpr ⟨mn, hmem, by simp⟩)
        constructor
        · intro hla
          have hne : mn ≠ label := fun he => hmn (he ▸ hla)
          show (runContactSheets env sendOk today currentMonth isMonday (j + 1) rest
              (completionAggregationStep cm mn isMonday _)).1.count label = cm.count label
          unfold completionAggregationStep
          split_ifs with h3
          · have hstep : (cm ++ [mn]).count label = cm.count label := by
              simp [List.count_append, List.count_cons, hne, Ne.symm hne]
            rw [(ih (j + 1) (cm ++ [mn])).1 (List.mem_append_left _ hla), hstep]
          · exact (ih (j + 1) cm).1 hla
        · intro hla
          show (runContactSheets env sendOk today currentMonth isMonday (j + 1) rest
              (completionAggregationStep cm mn isMonday _)).1.count label ≤ 1
          unfold completionAggregationStep
          split_ifs with h3
          · by_cases hlm : label = mn
            · subst hlm
              have hmem : label ∈ cm ++ [label] := List.mem_append_right _ (by simp)
              rw [(ih (j + 1) (cm ++ [label])).1 hmem]
              simp [List.count_append, List.count_eq_zero.mpr hla]
            · have hnm : label ∉ cm ++ [mn] := by
                simp [List.mem_append, hla, hlm]
              exact (ih (j + 1) (cm ++ [mn])).2 hnm
          · exact (ih (j + 1) cm).2 hla

/-- Witness for C4 (amended): starting from an empty completed list, a
January run leaves the label with multiplicity at most one. -/
theorem completeMonths_no_duplicate_per_run_witness :
    (runContactSheets envA (fun _ _ => true) (msOfDay 2024 1 8) 0 true 0
      [⟨"January Contacts", [rowA]⟩] []).1.count "January" ≤ 1 :=
  (completeMonths_no_duplicate_per_run envA (fun _ _ => true) (msOfDay 2024 1 8) 0 true
    [⟨"January Contacts", [rowA]⟩] 0 [] "January").2 (by decide)

/-- JS `findIndex` returns `-1` or a valid index. -/
theorem jsFindIndex_range (p : String → Bool) :
    ∀ l : List String, jsFindIndex p l = -1 ∨
      (0 ≤ jsFindIndex p l ∧ jsFindIndex p l < l.length) := by
  intro l
  induction l with
  | nil => exact Or.inl rfl
  | cons x xs ih =>
    rw [jsFindIndex]
    split_ifs with hp hr
    · right
      constructor
      · omega
      · simp only [List.length_cons]
        omega
    · exact Or.inl rfl
    · rcases ih with h | h
      · exact absurd h hr
      · right
        constructor
        · omega
        · simp only [List.length_cons]
          push_cast
          omega

/-- C5 (amended): `getMonthNumberFromName` maps the twelve canonical month
names bijectively to 0..11, is case-insensitive, and returns `-1` on any
other name without crashing; but a `"<Name> Contacts"` sheet with an
unrecognized month name is NOT skipped — since `-1 > currentMonth` never
holds, the sheet's rows are scanned (unless its label is in the completed
list). -/
theorem getMonthNumberFromName_bijection_unrecognized_scanned
    (env : GlobalEnv) (sendOk : Nat → Nat → Bool) (today : Int) (cmStr : String)
    (sheet : ContactSheet) (rest : List ContactSheet) (mn name1 name2 : String)
    (hl : lowerStr name1 = lowerStr name2)
    (hmm : monthMatch sheet.name = some mn)
    (hunrec : getMonthNumberFromName mn = -1)
    (hcur : -1 ≤ jsGetMonth today)
    (hnotc : (splitCompleteMonths cmStr).contains mn = false) :
    months.map getMonthNumberFromName = [0, 1, 2, 3, 4, 5, 6, 7, 8, 9, 10, 11] ∧
    getMonthNumberFromName name1 = getMonthNumberFromName name2 ∧
    (∀ name : String, getMonthNumberFromName name = -1 ∨
      (0 ≤ getMonthNumberFromName name ∧ getMonthNumberFromName name < 12)) ∧
    (sendMonthlyContactReminders env sendOk today cmStr (sheet :: rest)).2.head? =
      some (sheet.name,
        processContactSheet env (sendOk 0) today (jsGetDay today == 1) 1 sheet.rows) := by
  refine ⟨by decide, ?_, ?_, ?_⟩
  · unfold getMonthNumberFromName
    rw [hl]
  · intro name
    have h := jsFindIndex_range (fun m => lowerStr m == lowerStr name) months
    simpa [getMonthNumberFromName, months] using h
  · unfold sendMonthlyContactReminders
    rw [runContactSheets]
    simp only [hmm]
    rw [if_neg (by rw [hunrec]; omega), if_neg (by rw [hnotc]; simp)]
    rfl

/-- Witness for C5 (amended) on the concrete unrecognized sheet. -/
theorem getMonthNumberFromName_bijection_unrecognized_scanned_witness :
    (sendMonthlyContactReminders envA (fun _ _ => true) (msOfDay 2024 1 8) ""
        [sheetSmarch]).2.head? =
      some (sheetSmarch.name,
        processContactSheet envA ((fun _ _ => true) 0) (msOfDay 2024 1 8)
          (jsGetDay (msOfDay 2024 1 8) == 1) 1 sheetSmarch.rows) :=
  (getMonthNumberFromName_bijection_unrecognized_scanned envA (fun _ _ => true)
    (msOfDay 2024 1 8) "" sheetSmarch [] "Smarch" "januarY" "JanUary"
    (by decide) (by decide) (by decide) (by decide) (by decide)).2.2.2

set_option maxRecDepth 8000 in
/-- C5 counterexample: the sheet `"Smarch Contacts"` has an unrecognized
month name (`getMonthNumberFromName` = -1), yet its rows ARE processed —
the run scans it and even sends a reminder from it — refuting the claim
that such a sheet is skipped with no rows processed. -/
theorem unrecognized_month_sheet_processed_cx :
    getMonthNumberFromName "Smarch" = -1 ∧
    (sendMonthlyContactReminders envA (fun _ _ => true) (msOfDay 2024 1 8) ""
        [sheetSmarch]).2.map (fun p => (p.1, remindersSentCount p.2)) =
      [("Smarch Contacts", 1)] := by
  decide

/-- C10: month completion looks only at the sent counter — if, on the
catch-up day, every row of a qualifying not-yet-complete month sheet is
skipped or fails (here: the lookup-miss / failure hypothesis `hall`), the
counter is 0 and the month label is added to the completion list, even
while a well-formed unsatisfied contact obligation remains in the sheet
(`hunsat`). -/
theorem month_complete_despite_unsatisfied_rows
    (env : GlobalEnv) (sendOk : Nat → Nat → Bool) (today : Int) (cmStr : String)
    (sheet : ContactSheet) (rest : List ContactSheet) (mn : String)
    (hmm : monthMatch sheet.name = some mn)
    (hmon : ¬ getMonthNumberFromName mn > jsGetMonth today)
    (hnotc : (splitCompleteMonths cmStr).contains mn = false)
    (hmonday : jsGetDay today = 1)
    (hall : ∀ o ∈ processContactSheet env (sendOk 0) today (jsGetDay today == 1) 1 sheet.rows,
        isSentOutcome o = false)
    (hunsat : ∃ r ∈ sheet.rows, r.childName ≠ "" ∧ (∃ t, r.dateSeenRaw = some (some t)) ∧
        r.seenBy ≠ "" ∧ r.dateContactEntered = "") :
    remindersSentCount
        (processContactSheet env (sendOk 0) today (jsGetDay today == 1) 1 sheet.rows) = 0 ∧
    mn ∈ (sendMonthlyContactReminders env sendOk today cmStr (sheet :: rest)).1 := by
  have hcount : remindersSentCount
      (processContactSheet env (sendOk 0) today (jsGetDay today == 1) 1 sheet.rows) = 0 := by
    rw [remindersSentCount, List.length_eq_zero, List.filter_eq_nil_iff]
    intro a ha
    simp [hall a ha]
  refine ⟨hcount, ?_⟩
  unfold sendMonthlyContactReminders
  rw [runContactSheets]
  simp only [hmm]
  rw [if_neg hmon, if_neg (by rw [hnotc]; simp)]
  apply runContactSheets_mono
  unfold completionAggregationStep
  rw [hcount, if_pos ⟨by simp [hmonday], rfl⟩]
  exact List.mem_append_right _ (by simp)

/-- Witness for C10: the January sheet's only row is assigned to an
unknown worker, every row outcome is a lookup-miss skip, and the January
label is added to the completion list. -/
theorem month_complete_despite_unsatisfied_rows_witness :
    remindersSentCount (processContactSheet envA ((fun _ _ => true) 0) (msOfDay 2024 1 8)
        (jsGetDay (msOfDay 2024 1 8) == 1) 1 sheetJanGhost.rows) = 0 ∧
    "January" ∈ (sendMonthlyContactReminders envA (fun _ _ => true) (msOfDay 2024 1 8) ""
        [sheetJanGhost]).1 :=
  month_complete_despite_unsatisfied_rows envA (fun _ _ => true) (msOfDay 2024 1 8) ""
    sheetJanGhost [] "January" (by decide) (by decide) (by decide) (by decide)
    (by decide)
    ⟨rowGhost, by decide, by decide, ⟨msOfDay 2024 1 3, by decide⟩, by decide, by decide⟩

end CaseTracker
